import Mathlib

/-!
Shallow embedding of `src/engine/core/IgeEngine.js` (Isogenic Game Engine
core): the object registry (`register`, `unRegister`, `$`), the dependency
gate (`dependencyCheck`, `start`), the frame scheduler (`tick`,
`_secondTick`), the render traversal (`render`) and the diagnostic
scene-graph walk (`sceneGraph`).

JavaScript conventions modelled explicitly:
- `undefined`-able fields become `Option`;
- JS truthiness tests such as `!ige.lastTick` or `!ige._dependencyCheckStart`
  are modelled as `none`-or-`some 0` checks on `Option Int` (both
  `undefined` and `0` are falsy in JS);
- exceptions thrown by collaborator code become `Except`/explicit flags;
- the JS dictionary `this._register` becomes an association list keyed by
  the object identifier.
-/

namespace Ige

/-- A scenegraph object as far as the registry is concerned: its id string
(the result of `obj.id()`) and its `_registered` property (`none` while the
property has never been assigned). -/
structure Obj where
  id : String
  registered : Option Bool
deriving DecidableEq, Repr

/-- The engine register `this._register`: a dictionary from id strings to
objects, modelled as an association list. Stored values are JS objects and
hence always truthy, so the JS presence test `!this._register[key]` is
`(lookup key).isNone`. -/
abbrev Registry := List (String × Obj)

/-- Result value of `register(obj)`: the engine reference `this` on success,
the boolean `false` on a duplicate id, or the raw `this._register`
dictionary when `obj` was `undefined`. -/
inductive RegisterResult where
  | engineRef
  | failure
  | registryValue (r : Registry)
deriving DecidableEq, Repr

/-- Embedding of `IgeEngine.register` (IgeEngine.js lines 117-133). Returns the updated
register, the updated object (its `_registered` property is assigned in both
branches when `obj` is defined) and the JS return value. -/
def register (reg : Registry) (obj : Option Obj) :
    Registry × Option Obj × RegisterResult :=
  match obj with
  | some o =>
      if (reg.lookup o.id).isSome then
        (reg, some { o with registered := some false }, .failure)
      else
        ((o.id, { o with registered := some true }) :: reg,
         some { o with registered := some true }, .engineRef)
  | none => (reg, none, .registryValue reg)

/-- Embedding of `IgeEngine.unRegister` (IgeEngine.js lines 135-144): removes the mapping
when present and clears the object's `_registered` flag; always returns
`this`. -/
def unRegister (reg : Registry) (obj : Option Obj) : Registry × Option Obj :=
  match obj with
  | some o =>
      if (reg.lookup o.id).isSome then
        (List.filter (fun p => p.1 ≠ o.id) reg, some { o with registered := some false })
      else
        (reg, some o)
  | none => (reg, none)

/-- The argument of `$` after JS `typeof` dispatch: a string id, an object
reference, or nothing (`undefined`). -/
inductive DollarArg where
  | byId (s : String)
  | direct (o : Obj)
  | nothing
deriving DecidableEq, Repr

/-- The value returned by `$`: a registered object (or `undefined` when the
id is unknown), the passed-through object, or the engine context itself. -/
inductive DollarResult where
  | found (o : Obj)
  | notFound
  | passThrough (o : Obj)
  | engineCtx
deriving DecidableEq, Repr

/-- Embedding of `IgeEngine.$` (IgeEngine.js lines 91-99): three-way dispatch on
`typeof(item)`. -/
def dollar (reg : Registry) (item : DollarArg) : DollarResult :=
  match item with
  | .byId s =>
      match reg.lookup s with
      | some o => .found o
      | none => .notFound
  | .direct o => .passThrough o
  | .nothing => .engineCtx

/-- Embedding of `IgeEngine.dependencyCheck` (IgeEngine.js lines 207-218): walks the
dependency queue backwards and returns `false` at the first predicate that
returns `false`; each predicate's current value is given as a `Bool`. -/
def dependencyCheck (deps : List Bool) : Bool :=
  deps.all id

/-- The part of the engine state that `start` reads and writes. `state` is
`_state` (0 stopped, 1 running), `depCheckStart` is
`_dependencyCheckStart` (`none` = never assigned), `depCheckTimeout` is
`_dependencyCheckTimeout`, and `armed` records whether
`requestAnimFrame(ige.tick)` has been issued. -/
structure GateState where
  state : Nat
  depCheckStart : Option Int
  depCheckTimeout : Int
  armed : Bool
deriving DecidableEq, Repr

/-- JS falsiness of an `Option Int` field: `undefined` and `0` are falsy. -/
def jsFalsy : Option Int → Bool
  | none => true
  | some v => v == 0

/-- Observable outcome of one synchronous invocation of `start`:
the arguments passed to `callback`, in order, and whether a 200 ms retry
of the whole check was scheduled via `setTimeout`. -/
structure StartOutcome where
  callbackCalls : List Bool
  retryScheduled : Bool
deriving DecidableEq, Repr

/-- One synchronous invocation of `IgeEngine.start` (IgeEngine.js lines
342-379) at wall-clock time `curTime` with the dependency predicates
currently evaluating to `deps`. `hasCallback` is the JS test
`typeof(callback) === 'function'`. -/
def startStep (st : GateState) (deps : List Bool) (curTime : Int)
    (hasCallback : Bool) : GateState × StartOutcome :=
  if st.state ≠ 0 then
    (st, { callbackCalls := [], retryScheduled := false })
  else if dependencyCheck deps then
    ({ st with state := 1, armed := true },
     { callbackCalls := if hasCallback then [true] else [],
       retryScheduled := false })
  else
    let st1 :=
      if jsFalsy st.depCheckStart then { st with depCheckStart := some curTime }
      else st
    if curTime - st1.depCheckStart.getD 0 > st1.depCheckTimeout then
      (st1, { callbackCalls := if hasCallback then [false] else [],
              retryScheduled := false })
    else
      (st1, { callbackCalls := [], retryScheduled := true })

/-- Embedding of `IgeEngine.stop` (IgeEngine.js lines 385-395). -/
def stop (st : GateState) : GateState × Bool :=
  if st.state ≠ 0 then ({ st with state := 0 }, true) else (st, false)

/-- The part of the engine state read and written by `tick` and
`_secondTick`. `lastTick` is `ige.lastTick` (`none` = never assigned),
`dpt` is `_dpt` (draws during the last completed frame), `drawCount` is
`_drawCount` (draws so far in the current frame), `frames` is `_frames`,
`fps` is `_fps`, `dps` is `_dps`, `clientNetDiff` is `_clientNetDiff`, and
`armed` records that `requestAnimFrame(ige.tick)` was issued again. -/
structure TickState where
  state : Nat
  frameAlternator : Bool
  clientNetDiff : Int
  lastTick : Option Int
  tickStart : Int
  tickDelta : Int
  frames : Int
  dpt : Int
  drawCount : Int
  fps : Int
  dps : Int
  armed : Bool
deriving DecidableEq, Repr

/-- Embedding of `IgeEngine.tick` (IgeEngine.js lines 630-678) at raw frame timestamp
`timeStamp`. The behaviour-processing hook and the render pass are external
collaborators whose only effect on this state is incrementing `_drawCount`;
`frameDraws` is the total number of draw calls they make this frame. -/
def tick (st : TickState) (timeStamp : Int) (frameDraws : Int) : TickState :=
  if st.state = 0 then st
  else
    let st1 := { st with armed := true, frameAlternator := !st.frameAlternator }
    let tickStart := timeStamp - st1.clientNetDiff
    -- the first-tick branch writes `lastTick = 0` and `tickDelta = 0`; that
    -- `lastTick` is unconditionally overwritten with `tickStart` below
    -- (line 670), so only the delta distinguishes the branches
    let delta :=
      if jsFalsy st1.lastTick then (0 : Int)
      else tickStart - st1.lastTick.getD 0
    { st1 with
      tickStart := tickStart,
      tickDelta := delta,
      lastTick := some tickStart,
      frames := st1.frames + 1,
      dpt := st1.drawCount + frameDraws,
      drawCount := 0 }

/-- Embedding of `IgeEngine._secondTick` (IgeEngine.js lines 615-625): fired by the
1000 ms `setInterval` timer armed in `init`; note that `_dps` is computed
from the freshly updated `_fps`. -/
def secondTick (st : TickState) : TickState :=
  let st1 := { st with fps := st.frames }
  let st2 := { st1 with dps := st1.dpt * st1.fps }
  { st2 with frames := 0, drawCount := 0 }

/-- A viewport child node as seen by `IgeEngine.render`: its id, its depth
attribute, and whether its own `tick` raises an exception when invoked. -/
structure VNode where
  id : String
  depth : Int
  throws : Bool
deriving DecidableEq, Repr

/-- Drawing-context operations observable during `render`, in the order
they are issued. -/
inductive CtxEvent where
  | save
  | translate
  | restore
  | nodeTick (id : String)
deriving DecidableEq, Repr

/-- Modelled from the spec: `depthSortChildren` is defined in the entity
base class, which is not part of this repository snapshot. The spec says
the reorder is by each node's depth attribute so that lower depth renders
first; since `render` then walks the child array from the last index to the
first, the array itself must be sorted by descending depth. Modelled as an
insertion sort with a descending depth comparator. -/
def depthInsert (n : VNode) : List VNode → List VNode
  | [] => [n]
  | m :: rest =>
      if n.depth > m.depth then n :: m :: rest
      else m :: depthInsert n rest

/-- Modelled from the spec: the full descending-depth sort used when
`_viewportDepth` is set (see `depthInsert`). -/
def depthSortChildren : List VNode → List VNode
  | [] => []
  | n :: rest => depthInsert n (depthSortChildren rest)

/-- The `while (arrCount--)` loop of `IgeEngine.render` (IgeEngine.js lines
693-698), walking the child array from the LAST index down to the first;
the argument list is already reversed. For each child: `ctx.save()`, then
the child's `tick` (which either emits its render or throws), then
`ctx.restore()`. A thrown exception propagates immediately: the pending
`restore` calls are skipped. Returns the emitted event trace and whether
the loop completed without an exception. -/
def renderLoop : List VNode → List CtxEvent × Bool
  | [] => ([], true)
  | n :: rest =>
      if n.throws then ([CtxEvent.save], false)
      else
        (CtxEvent.save :: CtxEvent.nodeTick n.id :: CtxEvent.restore ::
           (renderLoop rest).1,
         (renderLoop rest).2)

/-- Embedding of `IgeEngine.render` (IgeEngine.js lines 680-701): optional depth sort,
outer `ctx.save()` and `ctx.translate(...)`, the child loop (in reverse
array order), and the outer `ctx.restore()` — which is skipped when an
exception from a child propagates. -/
def render (viewportDepth : Bool) (children : List VNode) :
    List CtxEvent × Bool :=
  let cs := if viewportDepth then depthSortChildren children else children
  if (renderLoop cs.reverse).2 then
    (CtxEvent.save :: CtxEvent.translate ::
       (renderLoop cs.reverse).1 ++ [CtxEvent.restore], true)
  else
    (CtxEvent.save :: CtxEvent.translate :: (renderLoop cs.reverse).1, false)

/-- The ids of the nodes whose `tick` ran, in the order they ran. -/
def renderOrder (tr : List CtxEvent) : List String :=
  tr.filterMap (fun e =>
    match e with
    | .nodeTick i => some i
    | _ => none)

/-- Number of occurrences of one context event in a trace. -/
def countEvent (e : CtxEvent) (tr : List CtxEvent) : Nat :=
  tr.count e

/-- A node as seen by the diagnostic walk `IgeEngine.sceneGraph`: its id,
its `_classId`, its `_children` collection (`none` = the property is
absent/undefined), its `_scene` reference (`none` = absent) and its
`_shouldRender` flag. -/
inductive SNode : Type where
  | mk (id : String) (classId : String) (children : Option (List SNode))
      (scene : Option SNode) (shouldRender : Bool) : SNode

/-- The node's id string (`obj.id()`). -/
def SNode.id : SNode → String
  | .mk i _ _ _ _ => i

/-- The node's `_classId`. -/
def SNode.classId : SNode → String
  | .mk _ c _ _ _ => c

/-- The node's `_children` collection, `none` when absent. -/
def SNode.children : SNode → Option (List SNode)
  | .mk _ _ ch _ _ => ch

/-- The node's `_scene` reference, `none` when absent. -/
def SNode.scene : SNode → Option SNode
  | .mk _ _ _ sc _ => sc

/-- The node's `_shouldRender` flag. -/
def SNode.shouldRender : SNode → Bool
  | .mk _ _ _ _ b => b

/-- The indentation prefix built by the `for (di = 0; ...)` loop in
`sceneGraph`: four spaces per depth level. -/
def pad (d : Nat) : String :=
  String.join (List.replicate d "    ")

/-- The `obj.id() + ' (' + obj._classId + ')'` log line at a given depth. -/
def nodeLine (d : Nat) (i c : String) : String :=
  pad d ++ i ++ " (" ++ c ++ ")"

mutual

/-- The non-engine branch of `IgeEngine.sceneGraph` (IgeEngine.js lines
739-751): logs the node's line at the current depth, then (guarded by
`if (arr)`, so an absent collection contributes nothing) walks the child
array from the last index down to the first at depth + 1. -/
def sceneGraphSub : SNode → Nat → List String
  | SNode.mk i c ch _ _, d =>
      nodeLine d i c ::
      (match ch with
       | none => []
       | some arr => sceneGraphSubList arr (d + 1))

/-- The `while (arrCount--)` child loop of the non-engine branch: the last
array element is visited first. -/
def sceneGraphSubList : List SNode → Nat → List String
  | [], _ => []
  | n :: rest, d => sceneGraphSubList rest d ++ sceneGraphSub n d

end

/-- The engine branch's viewport loop of `IgeEngine.sceneGraph`
(IgeEngine.js lines 722-738), walking the engine's child array from the
last index to the first. For each viewport the code reads
`arr[arrCount]._scene._shouldRender` with no guard on `_scene`: when the
`_scene` reference is absent this dereference throws a TypeError, modelled
as `Except.error ()`. When the flag is set, the viewport's line is logged
at depth 1 and the walk recurses into the scene node at depth 2; when it is
clear the viewport is skipped entirely. -/
def sceneGraphRoots : List SNode → Except Unit (List String)
  | [] => Except.ok []
  | n :: rest => do
      let tailLogs ← sceneGraphRoots rest
      match n.scene with
      | none => Except.error ()
      | some sc =>
          if sc.shouldRender then
            Except.ok (tailLogs ++ (nodeLine 1 n.id n.classId :: sceneGraphSub sc 2))
          else
            Except.ok tailLogs

/-- Embedding of `IgeEngine.sceneGraph` invoked with no arguments (IgeEngine.js lines
706-752): `obj` defaults to the engine instance (id `ige`, class
`IgeEngine`), whose line is logged at depth 0; the engine's `_children`
array is guarded by `if (arr)`, so an absent collection yields just the
header line. -/
def sceneGraph (engineChildren : Option (List SNode)) :
    Except Unit (List String) :=
  match engineChildren with
  | none => Except.ok [nodeLine 0 "ige" "IgeEngine"]
  | some arr => do
      let logs ← sceneGraphRoots arr
      Except.ok (nodeLine 0 "ige" "IgeEngine" :: logs)

/-! ## Claims -/

/-- Claim C1: for every engine context and any two objects A and B with the
same identifier (fresh in the registry, so that registering A can succeed as
the claim presupposes), registering A then B succeeds for A (`this` is
returned) and fails for B (`false` is returned), the registry afterwards
maps that identifier only to A, the failing registration leaves the
registry mapping unchanged, and B is explicitly marked unregistered. -/
theorem c1_register_uniqueness (reg : Registry) (a b : Obj)
    (hid : a.id = b.id) (hfresh : reg.lookup a.id = none) :
    (register reg (some a)).2.2 = RegisterResult.engineRef ∧
    (register (register reg (some a)).1 (some b)).2.2 = RegisterResult.failure ∧
    (register (register reg (some a)).1 (some b)).1 = (register reg (some a)).1 ∧
    (register (register reg (some a)).1 (some b)).1.lookup b.id
      = some { a with registered := some true } ∧
    (register (register reg (some a)).1 (some b)).2.1
      = some { b with registered := some false } := by
  have h1 : register reg (some a)
      = ((a.id, { a with registered := some true }) :: reg,
         some { a with registered := some true }, RegisterResult.engineRef) := by
    simp [register, hfresh]
  have hlk : (((a.id, { a with registered := some true }) :: reg).lookup b.id)
      = some { a with registered := some true } := by
    simp [List.lookup, hid]
  rw [h1]
  refine ⟨rfl, ?_, ?_, ?_, ?_⟩ <;> simp [register, hlk]

/-- Witness for C1 at the concrete objects A = B = an entity with id `e1`
and the empty registry. -/
theorem c1_register_uniqueness_witness :
    (("e1" : String) = "e1") ∧ (([] : Registry).lookup "e1" = none) ∧
    ((register ([] : Registry) (some ⟨"e1", none⟩)).2.2 = RegisterResult.engineRef ∧
     (register (register ([] : Registry) (some ⟨"e1", none⟩)).1 (some ⟨"e1", none⟩)).2.2
       = RegisterResult.failure ∧
     (register (register ([] : Registry) (some ⟨"e1", none⟩)).1 (some ⟨"e1", none⟩)).1
       = (register ([] : Registry) (some ⟨"e1", none⟩)).1 ∧
     (register (register ([] : Registry) (some ⟨"e1", none⟩)).1 (some ⟨"e1", none⟩)).1.lookup "e1"
       = some ⟨"e1", some true⟩ ∧
     (register (register ([] : Registry) (some ⟨"e1", none⟩)).1 (some ⟨"e1", none⟩)).2.1
       = some ⟨"e1", some false⟩) :=
  ⟨rfl, rfl, c1_register_uniqueness [] ⟨"e1", none⟩ ⟨"e1", none⟩ rfl rfl⟩

/-- Claim C10: calling `register` with no argument (`undefined`) leaves the
registry unchanged, reports no failure, and returns the internal register
dictionary itself — a third result shape distinct from both the success
handle (`this`) and the `false` failure signal. -/
theorem c10_register_undefined (reg : Registry) :
    register reg none = (reg, none, RegisterResult.registryValue reg) ∧
    RegisterResult.registryValue reg ≠ RegisterResult.engineRef ∧
    RegisterResult.registryValue reg ≠ RegisterResult.failure := by
  refine ⟨rfl, ?_, ?_⟩ <;> intro h <;> exact RegisterResult.noConfusion h

/-- Claim C8: `$` is three-way polymorphic: a string id returns the
registered object for that identifier (here: an object just registered) or
not-found (`undefined`); an object reference is passed through unchanged;
no argument returns the engine context itself. -/
theorem c8_dollar_three_way (reg : Registry) (s : String) (o : Obj)
    (hfresh : reg.lookup o.id = none) (hmiss : reg.lookup s = none) :
    dollar (register reg (some o)).1 (DollarArg.byId o.id)
      = DollarResult.found { o with registered := some true } ∧
    dollar reg (DollarArg.byId s) = DollarResult.notFound ∧
    dollar reg (DollarArg.direct o) = DollarResult.passThrough o ∧
    dollar reg DollarArg.nothing = DollarResult.engineCtx := by
  refine ⟨?_, ?_, rfl, rfl⟩
  · simp [register, hfresh, dollar, List.lookup]
  · simp [dollar, hmiss]

/-- Witness for C8 at the empty registry, the id string `ghost` and the
object with id `e1`. -/
theorem c8_dollar_three_way_witness :
    (([] : Registry).lookup "e1" = none) ∧ (([] : Registry).lookup "ghost" = none) ∧
    (dollar (register ([] : Registry) (some ⟨"e1", none⟩)).1 (DollarArg.byId "e1")
       = DollarResult.found ⟨"e1", some true⟩ ∧
     dollar ([] : Registry) (DollarArg.byId "ghost") = DollarResult.notFound ∧
     dollar ([] : Registry) (DollarArg.direct ⟨"e1", none⟩)
       = DollarResult.passThrough ⟨"e1", none⟩ ∧
     dollar ([] : Registry) DollarArg.nothing = DollarResult.engineCtx) :=
  ⟨rfl, rfl, c8_dollar_three_way [] "ghost" ⟨"e1", none⟩ rfl rfl⟩

/-- Claim C5: if the engine is not Running and every dependency predicate
returns true, `start(callback)` synchronously (no retry scheduled)
transitions the state to Running, arms the frame scheduler
(`requestAnimFrame(ige.tick)`), and invokes the callback with `true`
exactly once. -/
theorem c5_start_success_path (st : GateState) (deps : List Bool) (t : Int)
    (hstopped : st.state = 0) (hdeps : dependencyCheck deps = true) :
    startStep st deps t true
      = ({ st with state := 1, armed := true },
         { callbackCalls := [true], retryScheduled := false }) := by
  simp [startStep, hstopped, hdeps]

/-- A stopped gate state with a 30000 ms timeout and no recorded
first-failure timestamp (the state right after `init`), for the concrete
scenarios below. -/
def gate0 : GateState :=
  { state := 0, depCheckStart := none, depCheckTimeout := 30000, armed := false }

/-- Witness for C5 at a stopped engine with two satisfied predicates. -/
theorem c5_start_success_path_witness :
    (gate0.state = 0) ∧ (dependencyCheck [true, true] = true) ∧
    startStep gate0 [true, true] 12345 true
      = ({ gate0 with state := 1, armed := true },
         { callbackCalls := [true], retryScheduled := false }) :=
  ⟨rfl, by decide,
   c5_start_success_path gate0 [true, true] 12345 rfl (by decide)⟩

/-- Counterexample to claim C4: with a 30000 ms timeout and a permanently
failing predicate, the first check at t = 1000 records the first-failure
timestamp; the check at t = 40000 reports the timeout (`callback(false)`);
a fresh `start()` attempt at t = 50000 does NOT record a new first-failure
timestamp (it is still 1000, not 50000) and immediately reports the
timeout again instead of waiting a full timeout window. -/
theorem c4_counterexample :
    ((startStep (startStep gate0 [false] 1000 true).1
        [false] 40000 true).2.callbackCalls = [false]) ∧
    (startStep (startStep (startStep gate0 [false] 1000 true).1
        [false] 40000 true).1 [false] 50000 true).1.depCheckStart = some 1000 ∧
    ¬((startStep (startStep (startStep gate0 [false] 1000 true).1
        [false] 40000 true).1 [false] 50000 true).1.depCheckStart = some 50000) ∧
    (startStep (startStep (startStep gate0 [false] 1000 true).1
        [false] 40000 true).1 [false] 50000 true).2
      = { callbackCalls := [false], retryScheduled := false } := by
  decide

/-- Claim C4 (amended): the first-failure timestamp is recorded at the
first failed check and is never reset by later `start()` attempts (the code
never clears `_dependencyCheckStart`): any later attempt while the
predicates still fail keeps the original timestamp (provided it is not the
JS-falsy value 0), and as soon as the elapsed time from that ORIGINAL
timestamp exceeds the configured timeout the attempt reports failure
immediately with no retry — so a retry of `start()` after a reported
timeout cannot wait a fresh timeout window. -/
theorem c4_timestamp_never_reset (st : GateState) (deps : List Bool)
    (t : Int) (hb : Bool) (v : Int) (hstopped : st.state = 0)
    (hdeps : dependencyCheck deps = false)
    (hrec : st.depCheckStart = some v) (hv : v ≠ 0) :
    (startStep st deps t hb).1.depCheckStart = some v ∧
    (t - v > st.depCheckTimeout →
      (startStep st deps t hb).2
        = { callbackCalls := if hb then [false] else [],
            retryScheduled := false }) := by
  have hfv : jsFalsy (some v) = false := by
    simp [jsFalsy, hv]
  constructor
  · simp [startStep, hstopped, hdeps, hrec, hfv]
    split <;> simp [hrec]
  · intro ht
    simp [startStep, hstopped, hdeps, hrec, hfv, ht]

/-- Witness for the amended C4: failing predicate, timestamp recorded at
1000, attempt at t = 50000 with timeout 30000. -/
theorem c4_timestamp_never_reset_witness :
    (({ gate0 with depCheckStart := some 1000 } : GateState).state = 0) ∧
    (dependencyCheck [false] = false) ∧
    (({ gate0 with depCheckStart := some 1000 } : GateState).depCheckStart
      = some 1000) ∧
    ((1000 : Int) ≠ 0) ∧
    ((startStep { gate0 with depCheckStart := some 1000 }
        [false] 50000 true).1.depCheckStart = some 1000 ∧
     ((50000 : Int) - 1000 > ({ gate0 with depCheckStart := some 1000 }
          : GateState).depCheckTimeout →
      (startStep { gate0 with depCheckStart := some 1000 } [false] 50000 true).2
        = { callbackCalls := if true then [false] else [],
            retryScheduled := false })) :=
  ⟨rfl, by decide, rfl, by decide,
   c4_timestamp_never_reset { gate0 with depCheckStart := some 1000 }
     [false] 50000 true 1000 rfl (by decide) rfl (by decide)⟩

/-- Claim C7: every firing of the once-per-second stats tick copies
`_frames` into `_fps`, sets `_dps` to `_dpt` (draws in the last completed
frame) times the freshly updated `_fps`, and zeroes `_frames` and
`_drawCount`; it happens for every engine state (the function never reads
or writes `_state`), Running or Stopped alike. -/
theorem c7_second_tick_stats (st : TickState) :
    (secondTick st).fps = st.frames ∧
    (secondTick st).dps = st.dpt * (secondTick st).fps ∧
    (secondTick st).frames = 0 ∧
    (secondTick st).drawCount = 0 ∧
    (secondTick st).state = st.state := by
  refine ⟨rfl, rfl, rfl, rfl, rfl⟩

/-- The insertion step `depthInsert` only rearranges: inserting a node is a permutation of
consing it. -/
theorem depthInsert_perm (n : VNode) (l : List VNode) :
    List.Perm (depthInsert n l) (n :: l) := by
  induction l with
  | nil => simp [depthInsert]
  | cons m rest ih =>
      rw [depthInsert]
      split
      · exact List.Perm.refl _
      · exact (List.Perm.cons m ih).trans (List.Perm.swap n m rest)

/-- The sort `depthSortChildren` is a permutation of its input. -/
theorem depthSortChildren_perm (l : List VNode) :
    List.Perm (depthSortChildren l) l := by
  induction l with
  | nil => simp [depthSortChildren]
  | cons n rest ih =>
      exact (depthInsert_perm n (depthSortChildren rest)).trans
        (List.Perm.cons n ih)

/-- Inserting into a descending-by-depth sorted list keeps it sorted. -/
theorem depthInsert_sorted (n : VNode) (l : List VNode)
    (h : List.Sorted (fun a b : VNode => b.depth ≤ a.depth) l) :
    List.Sorted (fun a b : VNode => b.depth ≤ a.depth) (depthInsert n l) := by
  induction l with
  | nil => simp [depthInsert]
  | cons m rest ih =>
      rw [depthInsert]
      rw [List.sorted_cons] at h
      split
      · rename_i hgt
        rw [List.sorted_cons]
        refine ⟨?_, List.sorted_cons.mpr h⟩
        intro x hx
        rcases List.mem_cons.mp hx with hx | hx
        · exact hx ▸ le_of_lt hgt
        · exact le_trans (h.1 x hx) (le_of_lt hgt)
      · rename_i hle
        rw [List.sorted_cons]
        refine ⟨?_, ih h.2⟩
        intro x hx
        have hx2 := (depthInsert_perm n rest).mem_iff.mp hx
        rcases List.mem_cons.mp hx2 with hx3 | hx3
        · subst hx3; exact le_of_not_lt hle
        · exact h.1 x hx3

/-- The sort `depthSortChildren` sorts by descending depth (so that the reverse
traversal in `render` visits ascending depth: lower depth renders first). -/
theorem depthSortChildren_sorted (l : List VNode) :
    List.Sorted (fun a b : VNode => b.depth ≤ a.depth) (depthSortChildren l) := by
  induction l with
  | nil => simp [depthSortChildren]
  | cons n rest ih => exact depthInsert_sorted n (depthSortChildren rest) ih

/-- On a throw-free child list the render loop emits exactly one
save/restore pair around each node's tick, visits the nodes in list order,
and completes without an exception. -/
theorem renderLoop_counts (l : List VNode) (h : ∀ n ∈ l, n.throws = false) :
    countEvent CtxEvent.save (renderLoop l).1 = l.length ∧
    countEvent CtxEvent.restore (renderLoop l).1 = l.length ∧
    renderOrder (renderLoop l).1 = l.map VNode.id ∧
    (renderLoop l).2 = true := by
  induction l with
  | nil => simp [renderLoop, countEvent, renderOrder]
  | cons n rest ih =>
      have hn : n.throws = false := h n (List.mem_cons_self n rest)
      obtain ⟨hs, hr, ho, hok⟩ :=
        ih (fun m hm => h m (List.mem_cons_of_mem n hm))
      rw [renderLoop]
      simp only [hn, Bool.false_eq_true, if_false]
      refine ⟨?_, ?_, ?_, hok⟩
      · simpa [countEvent, List.count_cons] using hs
      · simpa [countEvent, List.count_cons] using hr
      · simpa [renderOrder, List.filterMap_cons] using ho

/-- Running `render` with depth sorting disabled, on a throw-free child list:
exactly one inner pair per node plus the outer pair, nodes visited in
reverse array order, normal completion. -/
theorem render_false_counts (cs : List VNode)
    (h : ∀ n ∈ cs, n.throws = false) :
    countEvent CtxEvent.save (render false cs).1 = cs.length + 1 ∧
    countEvent CtxEvent.restore (render false cs).1 = cs.length + 1 ∧
    renderOrder (render false cs).1 = (cs.map VNode.id).reverse ∧
    (render false cs).2 = true := by
  obtain ⟨hs, hr, ho, hok⟩ := renderLoop_counts cs.reverse
    (fun n hn => h n (List.mem_reverse.mp hn))
  rw [render]
  simp only [if_false, Bool.false_eq_true, hok, if_true]
  refine ⟨?_, ?_, ?_, trivial⟩
  · simpa [countEvent, List.count_cons, List.count_append] using hs
  · simpa [countEvent, List.count_cons, List.count_append] using hr
  · simpa [renderOrder, List.filterMap_cons, List.filterMap_append,
      List.map_reverse] using ho

/-- Running `render` with the depth sort enabled is `render` with the sort already
applied. -/
theorem render_true_eq (children : List VNode) :
    render true children = render false (depthSortChildren children) := rfl

/-- Counterexample to claim C2: a single root node whose tick raises. The
code has no error protection: the outer save and the inner save around the
failing node are both left without a matching restore (2 saves, 0
restores), and the exception propagates out of `render`. -/
theorem c2_counterexample :
    countEvent CtxEvent.save
      (render false [{ id := "v1", depth := 0, throws := true }]).1 = 2 ∧
    countEvent CtxEvent.restore
      (render false [{ id := "v1", depth := 0, throws := true }]).1 = 0 ∧
    (render false [{ id := "v1", depth := 0, throws := true }]).2 = false := by
  refine ⟨rfl, rfl, rfl⟩

/-- Claim C2 (amended): for a root collection of N nodes, exactly N
save/restore pairs are issued around node renders plus one outer pair —
PROVIDED no node's own tick raises an error. (The code has no try/finally:
when a node's tick raises, the exception propagates and the pending saves
are not restored, as the counterexample shows, so the pairing guarantee
only holds on the error-free path.) -/
theorem c2_render_scoping (vd : Bool) (children : List VNode)
    (h : ∀ n ∈ children, n.throws = false) :
    countEvent CtxEvent.save (render vd children).1 = children.length + 1 ∧
    countEvent CtxEvent.restore (render vd children).1 = children.length + 1 ∧
    (render vd children).2 = true := by
  cases vd with
  | false =>
      obtain ⟨hs, hr, _, hok⟩ := render_false_counts children h
      exact ⟨hs, hr, hok⟩
  | true =>
      have hperm := depthSortChildren_perm children
      obtain ⟨hs, hr, _, hok⟩ := render_false_counts (depthSortChildren children)
        (fun n hn => h n (hperm.subset hn))
      rw [render_true_eq]
      rw [hperm.length_eq] at hs hr
      exact ⟨hs, hr, hok⟩

/-- Witness for the amended C2: two well-behaved nodes, depth sort off. -/
theorem c2_render_scoping_witness :
    (∀ n ∈ [({ id := "a", depth := 3, throws := false } : VNode),
            { id := "b", depth := 1, throws := false }], n.throws = false) ∧
    (countEvent CtxEvent.save
       (render false [({ id := "a", depth := 3, throws := false } : VNode),
          { id := "b", depth := 1, throws := false }]).1
       = [({ id := "a", depth := 3, throws := false } : VNode),
          { id := "b", depth := 1, throws := false }].length + 1 ∧
     countEvent CtxEvent.restore
       (render false [({ id := "a", depth := 3, throws := false } : VNode),
          { id := "b", depth := 1, throws := false }]).1
       = [({ id := "a", depth := 3, throws := false } : VNode),
          { id := "b", depth := 1, throws := false }].length + 1 ∧
     (render false [({ id := "a", depth := 3, throws := false } : VNode),
        { id := "b", depth := 1, throws := false }]).2 = true) :=
  ⟨by decide,
   c2_render_scoping false
     [{ id := "a", depth := 3, throws := false },
      { id := "b", depth := 1, throws := false }] (by decide)⟩

/-- Concrete root node with depth value 3, for the claim C3 scenarios. -/
def nodeA : VNode := { id := "a", depth := 3, throws := false }

/-- Concrete root node with depth value 1, for the claim C3 scenarios. -/
def nodeB : VNode := { id := "b", depth := 1, throws := false }

/-- Concrete root node with depth value 2, for the claim C3 scenarios. -/
def nodeC : VNode := { id := "c", depth := 2, throws := false }

/-- Counterexample to claim C3: with `viewportDepthSortEnabled = false` and
the root collection [a, b, c] having depth values [3, 1, 2], the
`while (arrCount--)` loop walks the child array from the last index to the
first, so the rendering order is [c, b, a] — the REVERSE of the collection
order, not the original order the claim states. -/
theorem c3_counterexample :
    renderOrder (render false [nodeA, nodeB, nodeC]).1 = ["c", "b", "a"] ∧
    ¬(renderOrder (render false [nodeA, nodeB, nodeC]).1 = ["a", "b", "c"]) := by
  decide

/-- Claim C3 (amended): with `viewportDepthSortEnabled = true`, root nodes
render in ascending depth order — `depthSortChildren` (modelled from the
spec, since the entity base class defining it is not in this repository
snapshot) sorts the array by descending depth and the render loop then
walks it backwards, so depth values [3, 1, 2] render as [1, 2, 3], matching
the claim; with `viewportDepthSortEnabled = false` the rendering order is
the REVERSE of the root-collection order, not the original order. -/
theorem c3_depth_sort_toggle (children : List VNode)
    (h : ∀ n ∈ children, n.throws = false) :
    renderOrder (render false children).1 = (children.map VNode.id).reverse ∧
    renderOrder (render true children).1
      = ((depthSortChildren children).map VNode.id).reverse ∧
    List.Sorted (fun a b : VNode => b.depth ≤ a.depth)
      (depthSortChildren children) := by
  refine ⟨(render_false_counts children h).2.2.1, ?_,
    depthSortChildren_sorted children⟩
  rw [render_true_eq]
  exact (render_false_counts (depthSortChildren children)
    (fun n hn => h n ((depthSortChildren_perm children).subset hn))).2.2.1

/-- Witness for the amended C3 at depth values [3, 1, 2]: sorting off gives
the reversed collection order [c, b, a] (depths [2, 1, 3]); sorting on
gives [b, c, a] (depths [1, 2, 3], ascending). -/
theorem c3_depth_sort_toggle_witness :
    (∀ n ∈ [nodeA, nodeB, nodeC], n.throws = false) ∧
    renderOrder (render true [nodeA, nodeB, nodeC]).1 = ["b", "c", "a"] ∧
    (renderOrder (render false [nodeA, nodeB, nodeC]).1
       = ([nodeA, nodeB, nodeC].map VNode.id).reverse ∧
     renderOrder (render true [nodeA, nodeB, nodeC]).1
       = ((depthSortChildren [nodeA, nodeB, nodeC]).map VNode.id).reverse ∧
     List.Sorted (fun a b : VNode => b.depth ≤ a.depth)
       (depthSortChildren [nodeA, nodeB, nodeC])) :=
  ⟨by decide, by decide, c3_depth_sort_toggle [nodeA, nodeB, nodeC] (by decide)⟩

/-- A freshly started running engine timing state: no previous tick
timestamp, zero clock offset, all counters zero. -/
def tick0 : TickState :=
  { state := 1, frameAlternator := false, clientNetDiff := 0, lastTick := none,
    tickStart := 0, tickDelta := 0, frames := 0, dpt := 0, drawCount := 0,
    fps := 0, dps := 0, armed := false }

/-- Counterexample to claim C6: raw timestamps t1 = 0 then t2 = 250 with a
zero clock offset. The first tick stores `lastTick = 0`, and the JS test
`if (!ige.lastTick)` cannot distinguish a stored corrected timestamp of 0
from "never stored", so the second tick is treated as a first tick again:
its `tickDelta` is 0, not t2 - t1 = 250 as the claim requires of every
later tick. -/
theorem c6_counterexample :
    (tick tick0 0 0).tickDelta = 0 ∧
    (tick (tick tick0 0 0) 250 0).tickDelta = 0 ∧
    ¬((tick (tick tick0 0 0) 250 0).tickDelta = 250 - 0) := by decide

/-- Claim C6 (amended): on the first tick after start (no stored timestamp)
`tickDelta = 0`; on the next tick with raw timestamps t1 then t2 the delta
is the corrected difference (t2 - offset) - (t1 - offset) = t2 - t1, the
`clientClockOffset` being subtracted consistently from both — PROVIDED the
corrected first timestamp t1 - offset is not exactly 0: the code detects
"first tick" with the JS-falsy test `!ige.lastTick`, which conflates a
stored 0 with "absent" and then yields `tickDelta = 0` again (see the
counterexample). -/
theorem c6_tick_delta (st : TickState) (t1 t2 d1 d2 : Int)
    (hrun : ¬(st.state = 0)) (hfirst : st.lastTick = none)
    (hnz : ¬(t1 - st.clientNetDiff = 0)) :
    (tick st t1 d1).tickDelta = 0 ∧
    (tick (tick st t1 d1) t2 d2).tickDelta = t2 - t1 := by
  constructor
  · simp [tick, hrun, hfirst, jsFalsy]
  · have hbeq : ((t1 - st.clientNetDiff) == (0 : Int)) = false := by
      simpa using hnz
    simp [tick, hrun, hfirst, jsFalsy, hbeq]

/-- Witness for the amended C6: offset 7, raw timestamps 100 then 250; the
first delta is 0 and the second is 150. -/
theorem c6_tick_delta_witness :
    (¬(({ tick0 with clientNetDiff := 7 } : TickState).state = 0)) ∧
    (({ tick0 with clientNetDiff := 7 } : TickState).lastTick = none) ∧
    (¬((100 : Int) - ({ tick0 with clientNetDiff := 7 } : TickState).clientNetDiff
        = 0)) ∧
    ((tick { tick0 with clientNetDiff := 7 } 100 0).tickDelta = 0 ∧
     (tick (tick { tick0 with clientNetDiff := 7 } 100 0) 250 0).tickDelta
       = 250 - 100) :=
  ⟨by decide, rfl, by decide,
   c6_tick_delta { tick0 with clientNetDiff := 7 } 100 250 0 0
     (by decide) rfl (by decide)⟩

/-- Whether an `Except` computation succeeded. -/
def exceptOk {ε α : Type} : Except ε α → Bool
  | Except.ok _ => true
  | Except.error _ => false

/-- Counterexample to claim C9: a single root viewport whose `_scene`
reference is absent. The engine branch of `sceneGraph` dereferences
`arr[arrCount]._scene._shouldRender` with no guard on `_scene`, so the walk
raises a TypeError (modelled as `Except.error`) instead of skipping the
recursion into the absent scene. -/
theorem c9_counterexample :
    sceneGraph (some [SNode.mk "v1" "IgeViewport" none none true])
      = Except.error () := rfl

/-- Claim C9 (amended): the diagnostic walk is read-only (a pure function
of the tree in this embedding), treats an absent child collection as empty
both at the engine root and at every non-root node, skips root viewports
whose nested scene is flagged should-not-render, and succeeds whenever
every root viewport's scene reference is present; it does NOT, however,
guard an absent nested-scene reference — dereferencing the should-render
flag of an absent scene raises an error (see the counterexample). -/
theorem c9_scene_graph_guards (i c : String) (sc0 : Option SNode) (b : Bool)
    (d : Nat) (n : SNode) (s : SNode) (rest : List SNode) (arr : List SNode)
    (hskip : n.scene = some s) (hsr : s.shouldRender = false)
    (hall : ∀ m ∈ arr, (SNode.scene m).isSome = true) :
    sceneGraph none = Except.ok [nodeLine 0 "ige" "IgeEngine"] ∧
    sceneGraphSub (SNode.mk i c none sc0 b) d = [nodeLine d i c] ∧
    sceneGraphRoots (n :: rest) = sceneGraphRoots rest ∧
    exceptOk (sceneGraphRoots arr) = true := by
  refine ⟨rfl, ?_, ?_, ?_⟩
  · simp [sceneGraphSub]
  · cases hrr : sceneGraphRoots rest with
    | error e => simp [sceneGraphRoots, hskip, hsr, hrr, Bind.bind, Except.bind]
    | ok l => simp [sceneGraphRoots, hskip, hsr, hrr, Bind.bind, Except.bind]
  · induction arr with
    | nil => rfl
    | cons m tl ih =>
        obtain ⟨s2, hs2⟩ := Option.isSome_iff_exists.mp
          (hall m (List.mem_cons_self m tl))
        have htl := ih (fun x hx => hall x (List.mem_cons_of_mem m hx))
        cases hrr : sceneGraphRoots tl with
        | error e => rw [hrr] at htl; exact absurd htl (by simp [exceptOk])
        | ok l =>
            simp [sceneGraphRoots, hs2, hrr, Bind.bind, Except.bind]
            split <;> simp [exceptOk]

/-- Witness for the amended C9: a skipped viewport whose scene has
`_shouldRender = false`, and a one-viewport collection whose scene is
present. -/
theorem c9_scene_graph_guards_witness :
    ((SNode.mk "v1" "IgeViewport" none
        (some (SNode.mk "s1" "IgeScene" none none false)) true).scene
      = some (SNode.mk "s1" "IgeScene" none none false)) ∧
    ((SNode.mk "s1" "IgeScene" none none false).shouldRender = false) ∧
    (∀ m ∈ [SNode.mk "v2" "IgeViewport" none
        (some (SNode.mk "s2" "IgeScene" none none true)) true],
      (SNode.scene m).isSome = true) ∧
    (sceneGraph none = Except.ok [nodeLine 0 "ige" "IgeEngine"] ∧
     sceneGraphSub (SNode.mk "e1" "IgeEntity" none none true) 3
       = [nodeLine 3 "e1" "IgeEntity"] ∧
     sceneGraphRoots [SNode.mk "v1" "IgeViewport" none
         (some (SNode.mk "s1" "IgeScene" none none false)) true]
       = sceneGraphRoots [] ∧
     exceptOk (sceneGraphRoots [SNode.mk "v2" "IgeViewport" none
         (some (SNode.mk "s2" "IgeScene" none none true)) true]) = true) :=
  ⟨rfl, rfl,
   by
     intro m hm
     rw [List.mem_singleton] at hm
     subst hm
     rfl,
   c9_scene_graph_guards "e1" "IgeEntity" none true 3
     (SNode.mk "v1" "IgeViewport" none
       (some (SNode.mk "s1" "IgeScene" none none false)) true)
     (SNode.mk "s1" "IgeScene" none none false)
     []
     [SNode.mk "v2" "IgeViewport" none
       (some (SNode.mk "s2" "IgeScene" none none true)) true]
     rfl rfl
     (by
       intro m hm
       rw [List.mem_singleton] at hm
       subst hm
       rfl)⟩

end Ige
